import Mathlib

/-!
Verification of the gift-wrap folding engine (`src/giftWrap.py`).

The definitions below are a shallow embedding of the algorithmic parts of
`GiftWrap`: the folding-pattern solver `getFoldingPattern`, the key sets it
produces and the keys `createClusters` consumes, the fixed pivot-group
rotations, the fold-state machine `foldPaper`, the ribbon-size change
`changeRibbon`, constructor precondition handling, and `getRibbonWidth`.
Real-number quantities are modelled as rationals.
-/

namespace GiftWrap

/-! ## Folding-pattern solver scalars (`getFoldingPattern`, lines 414-460)

The Python code mutates local variables in sequence:
`gft_side_a += gft_thick`, `gft_side_d += gft_thick`,
`gft_side_b = gft_side_d * 0.6`, `gft_side_c = gft_side_e / 2 + y_gft`,
`gft_side_e += gft_thick`.  Each definition below takes the original
(pre-increment) `side` arguments and performs the same arithmetic. -/

/-- `y_gft = gft_thick / 2` -/
def yGft (t : ℚ) : ℚ := t / 2

/-- `gft_side_b = (gft_side_d + gft_thick) * 0.6` -/
def sideB (d t : ℚ) : ℚ := (d + t) * 0.6

/-- `gft_side_c = gft_side_e / 2 + y_gft` (uses the original `side_e`) -/
def sideC (e t : ℚ) : ℚ := e / 2 + yGft t

/-- `gft_side_e += gft_thick` ("needs to be run last") -/
def sideE (e t : ℚ) : ℚ := e + t

/-- `self.wrap_overlap = gft_side_e < (2 * gft_side_b)` (line 429) -/
def wrapOverlap (d e t : ℚ) : Bool := decide (sideE e t < 2 * sideB d t)

/-- `gft_side_f` (lines 431-435): `c - b` without overlap, `b - c` with. -/
def sideF (d e t : ℚ) : ℚ :=
  if ! wrapOverlap d e t then sideC e t - sideB d t else sideB d t - sideC e t

/-- `z_5 = gft_side_e / 2` (post-increment `side_e`) -/
def zRow5 (e t : ℚ) : ℚ := sideE e t / 2

/-- `z_6 = z_5 + gft_side_d` (post-increment `side_d`) -/
def zRow6 (d e t : ℚ) : ℚ := zRow5 e t + (d + t)

/-- `z_7 = z_6 + gft_side_c` -/
def zRow7 (d e t : ℚ) : ℚ := zRow6 d e t + sideC e t

/-- `z_3 = z_5 * -1` -/
def zRow3 (e t : ℚ) : ℚ := zRow5 e t * (-1)

/-- `z_2 = z_6 * -1` -/
def zRow2 (d e t : ℚ) : ℚ := zRow6 d e t * (-1)

/-- `z_1` (lines 450-454): `z_7 * -1` without overlap, `z_2 - gft_side_b` with. -/
def zRow1 (d e t : ℚ) : ℚ :=
  if ! wrapOverlap d e t then zRow7 d e t * (-1) else zRow2 d e t - sideB d t

/-- `z_8` (lines 456-460): `z_7 + gft_side_f` without overlap, `z_7` with. -/
def zRow8 (d e t : ℚ) : ℚ :=
  if ! wrapOverlap d e t then zRow7 d e t + sideF d e t else zRow7 d e t

/-! ## Key sets: pattern keys vs. keys consumed by `createClusters`

`getFoldingPattern` (lines 463-544) builds a dict whose key set depends only
on the overlap flag; `createClusters` (lines 974-1182) looks keys up in that
dict.  `patternKeys` lists the keys in construction order; `clusterKeys`
lists every key `createClusters` reads (via `getVertexFromPoint` and
`getVerticesForRow`). -/

/-- The rectilinear 4x8 grid keys of the dict literal (lines 463-478). -/
def gridKeys : List String :=
  ["F1", "F2", "F3", "F4", "F5", "F6", "F7", "F8",
   "G1", "G2", "G3", "G4", "G5", "G6", "G7", "G8",
   "H1", "H2", "H3", "H4", "H5", "H6", "H7", "H8",
   "I1", "I2", "I3", "I4", "I5", "I6", "I7", "I8"]

/-- Keys present in the dict returned by `getFoldingPattern` for a given
overlap mode, in the order the source inserts them (lines 463-544). -/
def patternKeys (ov : Bool) : List String :=
  gridKeys ++ ["I4a", "I4b", "F4a", "F4b"]
    ++ (if ov then ["HI4", "FG4"] else [])
    ++ ["I1a", "F1a"]
    ++ (if ov then ["I1b", "F1b", "I1c", "F1c"] else [])
    ++ ["I7a", "F7a"]
    ++ (if ov then ["I7b", "F7b"] else [])

/-- Row keys read by `getVerticesForRow` for rows 1, 2, 6, 7, 8
(lines 981-988; each access is guarded by a `key in points` check, and the
row-8 list is built in both modes). -/
def rowKeys : List String :=
  ["F1", "G1", "H1", "I1", "F2", "G2", "H2", "I2",
   "F6", "G6", "H6", "I6", "F7", "G7", "H7", "I7",
   "F8", "G8", "H8", "I8"]

/-- Every key `createClusters` passes to `getVertexFromPoint` (an unguarded
dict lookup) for the given overlap mode, cluster by cluster in source order
(lines 994-1182), prefixed by the guarded row lookups. -/
def clusterKeys (ov : Bool) : List String :=
  rowKeys
    ++ ["F1a", "I1a"] ++ (if ov then ["F1b", "I1b", "F1c", "I1c"] else [])  -- 1U
    ++ ["F7a", "I7a"] ++ (if ov then ["F7b", "I7b"] else [])                -- 1B
    ++ ["F1a", "I1a"] ++ (if ov then ["F1b", "I1b", "F1c", "I1c"] else [])  -- 2U
    ++ ["F7a", "I7a"] ++ (if ov then ["F7b", "I7b"] else [])                -- 2B
    ++ ["I3"] ++ (if ov then ["I4a", "I4b"] else [])                        -- 3UR
    ++ ["I5"] ++ (if ov then ["I4a", "I4b"] else [])                        -- 3BR
    ++ ["F3"] ++ (if ov then ["F4a", "F4b"] else [])                        -- 3UL
    ++ ["F5"] ++ (if ov then ["F4a", "F4b"] else [])                        -- 3BL
    ++ ["I2"] ++ (if ov then ["I1b", "I7"] else [])                         -- 4UR
    ++ ["I6"] ++ (if ov then ["I7a", "I1", "I7"] else [])                   -- 4BR
    ++ ["F2"] ++ (if ov then ["F1b", "F7"] else [])                         -- 4UL
    ++ ["F6"] ++ (if ov then ["F7a", "F1", "F7"] else [])                   -- 4BL
    ++ ["I4a", "I4b"] ++ (if ov then ["HI4"] else [])                       -- 6R
    ++ ["F4a", "F4b"] ++ (if ov then ["FG4"] else [])                       -- 6L
    ++ ["I7", "I1", "I1a", "I7a"]
    ++ (if ov then ["I7b", "I1b", "I1c"] else ["I8"])                       -- 5R
    ++ ["F7", "F1", "F1a", "F7a"]
    ++ (if ov then ["F7b", "F1b", "F1c"] else ["F8"])                       -- 5L

/-! ## Auxiliary pivot-group rotations (`createClusters` lines 1054-1128,
`createPivotAndCluster` lines 933-959)

`createPivotAndCluster` receives a `rotate_values` list: a single value sets
only `rotateY` on the pivot group, three values set the full
`(rotateX, rotateY, rotateZ)` triple. -/

/-- The rotation triple a pivot group ends up with, given the
`rotate_values` list passed to `createPivotAndCluster` (the group is created
with identity rotation, so a 1-element list yields `(0, v, 0)`). -/
def applyRotateValues (vs : List ℚ) : ℚ × ℚ × ℚ :=
  match vs with
  | [v] => (0, v, 0)
  | [x, y, z] => (x, y, z)
  | _ => (0, 0, 0)

/-- `rotate_values` for the 3rd-fold pivot groups, per corner
(`createClusters`: 3UR gets `[-45]`, 3BR `[180, 225, 0]`, 3UL `[45]`,
3BL `[0, 45, 180]`). -/
def rot3Values (corner : String) : List ℚ :=
  if corner = "UR" then [-45]
  else if corner = "BR" then [180, 225, 0]
  else if corner = "UL" then [45]
  else if corner = "BL" then [0, 45, 180]
  else []

/-- `rotate_values` for the 4th-fold pivot groups, per corner
(`createClusters`: 4UR gets `[135]`, 4BR `[45]`, 4UL `[225]`,
4BL `[180, 225, 180]`). -/
def rot4Values (corner : String) : List ℚ :=
  if corner = "UR" then [135]
  else if corner = "BR" then [45]
  else if corner = "UL" then [225]
  else if corner = "BL" then [180, 225, 180]
  else []

/-- Rotation triple of the 3rd-fold pivot group for a corner. -/
def pivotGroupRot3 (corner : String) : ℚ × ℚ × ℚ :=
  applyRotateValues (rot3Values corner)

/-- Rotation triple of the 4th-fold pivot group for a corner. -/
def pivotGroupRot4 (corner : String) : ℚ × ℚ × ℚ :=
  applyRotateValues (rot4Values corner)

/-! ## Fold-state machine (`foldPaper`, lines 1213-1337)

`foldPaper(folds)` sets and resets `rotate`/`translate` attributes on the
16 fold pivots.  Each pivot is a distinct scene node; we model the six
attributes the method touches. -/

/-- The transform attributes of one fold pivot node; the source reads and
writes `rotateX/Y/Z` and `translateX/Y/Z`. -/
structure Pivot where
  rx : ℚ
  ry : ℚ
  rz : ℚ
  tx : ℚ
  ty : ℚ
  tz : ℚ
deriving DecidableEq

/-- A pivot at rest: identity rotation, zero translate (the state a freshly
created cluster/locator node starts in). -/
def Pivot.rest : Pivot := ⟨0, 0, 0, 0, 0, 0⟩

/-- The keys of the `self.pivots` dict read and written by `foldPaper`. -/
inductive PivotId where
  | oneU | oneB | twoU | twoB
  | threeUR | threeUL | threeBR | threeBL
  | fourUR | fourUL | fourBR | fourBL
  | fiveL | fiveR | sixL | sixR
deriving DecidableEq

/-- The `self.pivots` dict as far as `foldPaper` touches it: the transform
attributes of each of the 16 pivot nodes. -/
abbrev FoldState := PivotId → Pivot

/-- The state right after cluster creation: every pivot at rest. -/
def FoldState.initial : FoldState := fun _ => Pivot.rest

/-- `if folds >= 1: 1B.rotateX -90` -/
def foldAct1 (k : ℤ) (s : FoldState) : FoldState :=
  if 1 ≤ k then Function.update s PivotId.oneB { s PivotId.oneB with rx := -90 } else s

/-- `if folds >= 2: 2B.rotateX -90` -/
def foldAct2 (k : ℤ) (s : FoldState) : FoldState :=
  if 2 ≤ k then Function.update s PivotId.twoB { s PivotId.twoB with rx := -90 } else s

/-- `if folds >= 3: 1U.rotateX 90` -/
def foldAct3 (k : ℤ) (s : FoldState) : FoldState :=
  if 3 ≤ k then Function.update s PivotId.oneU { s PivotId.oneU with rx := 90 } else s

/-- `if folds >= 4: 2U.rotateX 89.8` -/
def foldAct4 (k : ℤ) (s : FoldState) : FoldState :=
  if 4 ≤ k then Function.update s PivotId.twoU { s PivotId.twoU with rx := 89.8 } else s

/-- `if folds >= 5: 3UL.rotateX = 178, translate = (fold_fix, 0, 0)` -/
def foldAct5 (fix : ℚ) (k : ℤ) (s : FoldState) : FoldState :=
  if 5 ≤ k then Function.update s PivotId.threeUL { s PivotId.threeUL with rx := 178, tx := fix, ty := 0, tz := 0 } else s

/-- `if folds >= 6: 3BL.rotateX = 178, translate = (fold_fix * -1, 0, 0)` -/
def foldAct6 (fix : ℚ) (k : ℤ) (s : FoldState) : FoldState :=
  if 6 ≤ k then Function.update s PivotId.threeBL { s PivotId.threeBL with rx := 178, tx := fix * (-1), ty := 0, tz := 0 } else s

/-- `if folds >= 7: 3UR.rotateX = 178, translate = (fold_fix * -1, 0, 0)` -/
def foldAct7 (fix : ℚ) (k : ℤ) (s : FoldState) : FoldState :=
  if 7 ≤ k then Function.update s PivotId.threeUR { s PivotId.threeUR with rx := 178, tx := fix * (-1), ty := 0, tz := 0 } else s

/-- `if folds >= 8: 3BR.rotateX = 178, translate = (fold_fix, 0, 0)` -/
def foldAct8 (fix : ℚ) (k : ℤ) (s : FoldState) : FoldState :=
  if 8 ≤ k then Function.update s PivotId.threeBR { s PivotId.threeBR with rx := 178, tx := fix, ty := 0, tz := 0 } else s

/-- `if folds >= 9: 4UL.rotateX 178` -/
def foldAct9 (k : ℤ) (s : FoldState) : FoldState :=
  if 9 ≤ k then Function.update s PivotId.fourUL { s PivotId.fourUL with rx := 178 } else s

/-- `if folds >= 10: 4BL.rotateX 178` -/
def foldAct10 (k : ℤ) (s : FoldState) : FoldState :=
  if 10 ≤ k then Function.update s PivotId.fourBL { s PivotId.fourBL with rx := 178 } else s

/-- `if folds >= 11: 4UR.rotateX 178` -/
def foldAct11 (k : ℤ) (s : FoldState) : FoldState :=
  if 11 ≤ k then Function.update s PivotId.fourUR { s PivotId.fourUR with rx := 178 } else s

/-- `if folds >= 12: 4BR.rotateX 178` -/
def foldAct12 (k : ℤ) (s : FoldState) : FoldState :=
  if 12 ≤ k then Function.update s PivotId.fourBR { s PivotId.fourBR with rx := 178 } else s

/-- `if folds >= 13: 5L.rotateZ 86` -/
def foldAct13 (k : ℤ) (s : FoldState) : FoldState :=
  if 13 ≤ k then Function.update s PivotId.fiveL { s PivotId.fiveL with rz := 86 } else s

/-- `if folds >= 14: 5R.rotateZ -86` -/
def foldAct14 (k : ℤ) (s : FoldState) : FoldState :=
  if 14 ≤ k then Function.update s PivotId.fiveR { s PivotId.fiveR with rz := -86 } else s

/-- `if folds >= 15: 6L.rotateZ -84` -/
def foldAct15 (k : ℤ) (s : FoldState) : FoldState :=
  if 15 ≤ k then Function.update s PivotId.sixL { s PivotId.sixL with rz := -84 } else s

/-- `if folds >= 16: 6R.rotateZ 84` -/
def foldAct16 (k : ℤ) (s : FoldState) : FoldState :=
  if 16 ≤ k then Function.update s PivotId.sixR { s PivotId.sixR with rz := 84 } else s

/-- `if folds == 0:` reset 1B rotation. -/
def foldRst1 (k : ℤ) (s : FoldState) : FoldState :=
  if k = 0 then Function.update s PivotId.oneB { s PivotId.oneB with rx := 0, ry := 0, rz := 0 } else s

/-- `if folds < 2:` reset 2B rotation. -/
def foldRst2 (k : ℤ) (s : FoldState) : FoldState :=
  if k < 2 then Function.update s PivotId.twoB { s PivotId.twoB with rx := 0, ry := 0, rz := 0 } else s

/-- `if folds < 3:` reset 1U rotation. -/
def foldRst3 (k : ℤ) (s : FoldState) : FoldState :=
  if k < 3 then Function.update s PivotId.oneU { s PivotId.oneU with rx := 0, ry := 0, rz := 0 } else s

/-- `if folds < 4:` reset 2U rotation. -/
def foldRst4 (k : ℤ) (s : FoldState) : FoldState :=
  if k < 4 then Function.update s PivotId.twoU { s PivotId.twoU with rx := 0, ry := 0, rz := 0 } else s

/-- `if folds < 5:` reset 3UL rotation and translate. -/
def foldRst5 (k : ℤ) (s : FoldState) : FoldState :=
  if k < 5 then Function.update s PivotId.threeUL Pivot.rest else s

/-- `if folds < 6:` reset 3BL rotation and translate. -/
def foldRst6 (k : ℤ) (s : FoldState) : FoldState :=
  if k < 6 then Function.update s PivotId.threeBL Pivot.rest else s

/-- `if folds < 7:` reset 3UR rotation and translate. -/
def foldRst7 (k : ℤ) (s : FoldState) : FoldState :=
  if k < 7 then Function.update s PivotId.threeUR Pivot.rest else s

/-- `if folds < 8:` reset 3BR rotation and translate. -/
def foldRst8 (k : ℤ) (s : FoldState) : FoldState :=
  if k < 8 then Function.update s PivotId.threeBR Pivot.rest else s

/-- `if folds < 9:` reset 4UL rotation. -/
def foldRst9 (k : ℤ) (s : FoldState) : FoldState :=
  if k < 9 then Function.update s PivotId.fourUL { s PivotId.fourUL with rx := 0, ry := 0, rz := 0 } else s

/-- `if folds < 10:` reset 4BL rotation. -/
def foldRst10 (k : ℤ) (s : FoldState) : FoldState :=
  if k < 10 then Function.update s PivotId.fourBL { s PivotId.fourBL with rx := 0, ry := 0, rz := 0 } else s

/-- `if folds < 11:` reset 4UR rotation. -/
def foldRst11 (k : ℤ) (s : FoldState) : FoldState :=
  if k < 11 then Function.update s PivotId.fourUR { s PivotId.fourUR with rx := 0, ry := 0, rz := 0 } else s

/-- `if folds < 12:` reset 4BR rotation. -/
def foldRst12 (k : ℤ) (s : FoldState) : FoldState :=
  if k < 12 then Function.update s PivotId.fourBR { s PivotId.fourBR with rx := 0, ry := 0, rz := 0 } else s

/-- `if folds < 13:` reset 5L rotation. -/
def foldRst13 (k : ℤ) (s : FoldState) : FoldState :=
  if k < 13 then Function.update s PivotId.fiveL { s PivotId.fiveL with rx := 0, ry := 0, rz := 0 } else s

/-- `if folds < 14:` reset 5R rotation. -/
def foldRst14 (k : ℤ) (s : FoldState) : FoldState :=
  if k < 14 then Function.update s PivotId.fiveR { s PivotId.fiveR with rx := 0, ry := 0, rz := 0 } else s

/-- `if folds < 15:` reset 6L rotation. -/
def foldRst15 (k : ℤ) (s : FoldState) : FoldState :=
  if k < 15 then Function.update s PivotId.sixL { s PivotId.sixL with rx := 0, ry := 0, rz := 0 } else s

/-- `if folds < 16:` reset 6R rotation. -/
def foldRst16 (k : ℤ) (s : FoldState) : FoldState :=
  if k < 16 then Function.update s PivotId.sixR { s PivotId.sixR with rx := 0, ry := 0, rz := 0 } else s

/-- `foldPaper(folds)` (lines 1213-1337), statement by statement: the 16
activation blocks (`if folds >= n`) followed by the 16 reset blocks
(`if folds == 0` / `if folds < n`).  `fix` is `self.fold_fix`. -/
def foldPaper (fix : ℚ) (folds : ℤ) (s : FoldState) : FoldState :=
  s |> foldAct1 folds |> foldAct2 folds |> foldAct3 folds |> foldAct4 folds
    |> foldAct5 fix folds |> foldAct6 fix folds |> foldAct7 fix folds |> foldAct8 fix folds
    |> foldAct9 folds |> foldAct10 folds |> foldAct11 folds |> foldAct12 folds
    |> foldAct13 folds |> foldAct14 folds |> foldAct15 folds |> foldAct16 folds
    |> foldRst1 folds |> foldRst2 folds |> foldRst3 folds |> foldRst4 folds
    |> foldRst5 folds |> foldRst6 folds |> foldRst7 folds |> foldRst8 folds
    |> foldRst9 folds |> foldRst10 folds |> foldRst11 folds |> foldRst12 folds
    |> foldRst13 folds |> foldRst14 folds |> foldRst15 folds |> foldRst16 folds

/-! ### Per-pivot closed forms of `foldPaper`

Each pivot is touched by exactly one activation block and one reset block;
for pivot `n` the two guards `folds >= n` and `folds < n` are complementary
(for 1B the reset guard is `folds == 0`, so a negative `folds` leaves 1B
untouched). -/

/-- Net effect of `foldPaper` on pivot oneB. -/
lemma foldPaper_oneB (fix : ℚ) (k : ℤ) (s : FoldState) :
    foldPaper fix k s PivotId.oneB =
      if 1 ≤ k then { s PivotId.oneB with rx := -90 }
      else if k = 0 then { s PivotId.oneB with rx := 0, ry := 0, rz := 0 }
      else s PivotId.oneB := by
  by_cases h1 : (1 : ℤ) ≤ k
  · have h0 : ¬ k = 0 := by omega
    simp [foldPaper, foldAct1, foldAct2, foldAct3, foldAct4, foldAct5, foldAct6,
    foldAct7, foldAct8, foldAct9, foldAct10, foldAct11, foldAct12, foldAct13,
    foldAct14, foldAct15, foldAct16, foldRst1, foldRst2, foldRst3, foldRst4,
    foldRst5, foldRst6, foldRst7, foldRst8, foldRst9, foldRst10, foldRst11,
    foldRst12, foldRst13, foldRst14, foldRst15, foldRst16, ite_apply,
    Function.update_apply, h1, h0]
  · by_cases h0 : k = 0 <;> simp [foldPaper, foldAct1, foldAct2, foldAct3, foldAct4, foldAct5, foldAct6,
    foldAct7, foldAct8, foldAct9, foldAct10, foldAct11, foldAct12, foldAct13,
    foldAct14, foldAct15, foldAct16, foldRst1, foldRst2, foldRst3, foldRst4,
    foldRst5, foldRst6, foldRst7, foldRst8, foldRst9, foldRst10, foldRst11,
    foldRst12, foldRst13, foldRst14, foldRst15, foldRst16, ite_apply,
    Function.update_apply, h1, h0]

/-- Net effect of `foldPaper` on pivot twoB. -/
lemma foldPaper_twoB (fix : ℚ) (k : ℤ) (s : FoldState) :
    foldPaper fix k s PivotId.twoB =
      if 2 ≤ k then { s PivotId.twoB with rx := -90 }
      else { s PivotId.twoB with rx := 0, ry := 0, rz := 0 } := by
  by_cases h2 : (2 : ℤ) ≤ k
  · have hlt : ¬ k < 2 := by omega
    simp [foldPaper, foldAct1, foldAct2, foldAct3, foldAct4, foldAct5, foldAct6,
    foldAct7, foldAct8, foldAct9, foldAct10, foldAct11, foldAct12, foldAct13,
    foldAct14, foldAct15, foldAct16, foldRst1, foldRst2, foldRst3, foldRst4,
    foldRst5, foldRst6, foldRst7, foldRst8, foldRst9, foldRst10, foldRst11,
    foldRst12, foldRst13, foldRst14, foldRst15, foldRst16, ite_apply,
    Function.update_apply, h2, hlt]
  · have hlt : k < 2 := by omega
    simp [foldPaper, foldAct1, foldAct2, foldAct3, foldAct4, foldAct5, foldAct6,
    foldAct7, foldAct8, foldAct9, foldAct10, foldAct11, foldAct12, foldAct13,
    foldAct14, foldAct15, foldAct16, foldRst1, foldRst2, foldRst3, foldRst4,
    foldRst5, foldRst6, foldRst7, foldRst8, foldRst9, foldRst10, foldRst11,
    foldRst12, foldRst13, foldRst14, foldRst15, foldRst16, ite_apply,
    Function.update_apply, h2, hlt]

/-- Net effect of `foldPaper` on pivot oneU. -/
lemma foldPaper_oneU (fix : ℚ) (k : ℤ) (s : FoldState) :
    foldPaper fix k s PivotId.oneU =
      if 3 ≤ k then { s PivotId.oneU with rx := 90 }
      else { s PivotId.oneU with rx := 0, ry := 0, rz := 0 } := by
  by_cases h3 : (3 : ℤ) ≤ k
  · have hlt : ¬ k < 3 := by omega
    simp [foldPaper, foldAct1, foldAct2, foldAct3, foldAct4, foldAct5, foldAct6,
    foldAct7, foldAct8, foldAct9, foldAct10, foldAct11, foldAct12, foldAct13,
    foldAct14, foldAct15, foldAct16, foldRst1, foldRst2, foldRst3, foldRst4,
    foldRst5, foldRst6, foldRst7, foldRst8, foldRst9, foldRst10, foldRst11,
    foldRst12, foldRst13, foldRst14, foldRst15, foldRst16, ite_apply,
    Function.update_apply, h3, hlt]
  · have hlt : k < 3 := by omega
    simp [foldPaper, foldAct1, foldAct2, foldAct3, foldAct4, foldAct5, foldAct6,
    foldAct7, foldAct8, foldAct9, foldAct10, foldAct11, foldAct12, foldAct13,
    foldAct14, foldAct15, foldAct16, foldRst1, foldRst2, foldRst3, foldRst4,
    foldRst5, foldRst6, foldRst7, foldRst8, foldRst9, foldRst10, foldRst11,
    foldRst12, foldRst13, foldRst14, foldRst15, foldRst16, ite_apply,
    Function.update_apply, h3, hlt]

/-- Net effect of `foldPaper` on pivot twoU. -/
lemma foldPaper_twoU (fix : ℚ) (k : ℤ) (s : FoldState) :
    foldPaper fix k s PivotId.twoU =
      if 4 ≤ k then { s PivotId.twoU with rx := 89.8 }
      else { s PivotId.twoU with rx := 0, ry := 0, rz := 0 } := by
  by_cases h4 : (4 : ℤ) ≤ k
  · have hlt : ¬ k < 4 := by omega
    simp [foldPaper, foldAct1, foldAct2, foldAct3, foldAct4, foldAct5, foldAct6,
    foldAct7, foldAct8, foldAct9, foldAct10, foldAct11, foldAct12, foldAct13,
    foldAct14, foldAct15, foldAct16, foldRst1, foldRst2, foldRst3, foldRst4,
    foldRst5, foldRst6, foldRst7, foldRst8, foldRst9, foldRst10, foldRst11,
    foldRst12, foldRst13, foldRst14, foldRst15, foldRst16, ite_apply,
    Function.update_apply, h4, hlt]
  · have hlt : k < 4 := by omega
    simp [foldPaper, foldAct1, foldAct2, foldAct3, foldAct4, foldAct5, foldAct6,
    foldAct7, foldAct8, foldAct9, foldAct10, foldAct11, foldAct12, foldAct13,
    foldAct14, foldAct15, foldAct16, foldRst1, foldRst2, foldRst3, foldRst4,
    foldRst5, foldRst6, foldRst7, foldRst8, foldRst9, foldRst10, foldRst11,
    foldRst12, foldRst13, foldRst14, foldRst15, foldRst16, ite_apply,
    Function.update_apply, h4, hlt]

/-- Net effect of `foldPaper` on pivot threeUL. -/
lemma foldPaper_threeUL (fix : ℚ) (k : ℤ) (s : FoldState) :
    foldPaper fix k s PivotId.threeUL =
      if 5 ≤ k then { s PivotId.threeUL with rx := 178, tx := fix, ty := 0, tz := 0 }
      else Pivot.rest := by
  by_cases h5 : (5 : ℤ) ≤ k
  · have hlt : ¬ k < 5 := by omega
    simp [foldPaper, foldAct1, foldAct2, foldAct3, foldAct4, foldAct5, foldAct6,
    foldAct7, foldAct8, foldAct9, foldAct10, foldAct11, foldAct12, foldAct13,
    foldAct14, foldAct15, foldAct16, foldRst1, foldRst2, foldRst3, foldRst4,
    foldRst5, foldRst6, foldRst7, foldRst8, foldRst9, foldRst10, foldRst11,
    foldRst12, foldRst13, foldRst14, foldRst15, foldRst16, ite_apply,
    Function.update_apply, h5, hlt]
  · have hlt : k < 5 := by omega
    simp [foldPaper, foldAct1, foldAct2, foldAct3, foldAct4, foldAct5, foldAct6,
    foldAct7, foldAct8, foldAct9, foldAct10, foldAct11, foldAct12, foldAct13,
    foldAct14, foldAct15, foldAct16, foldRst1, foldRst2, foldRst3, foldRst4,
    foldRst5, foldRst6, foldRst7, foldRst8, foldRst9, foldRst10, foldRst11,
    foldRst12, foldRst13, foldRst14, foldRst15, foldRst16, ite_apply,
    Function.update_apply, h5, hlt]

/-- Net effect of `foldPaper` on pivot threeBL. -/
lemma foldPaper_threeBL (fix : ℚ) (k : ℤ) (s : FoldState) :
    foldPaper fix k s PivotId.threeBL =
      if 6 ≤ k then { s PivotId.threeBL with rx := 178, tx := fix * (-1), ty := 0, tz := 0 }
      else Pivot.rest := by
  by_cases h6 : (6 : ℤ) ≤ k
  · have hlt : ¬ k < 6 := by omega
    simp [foldPaper, foldAct1, foldAct2, foldAct3, foldAct4, foldAct5, foldAct6,
    foldAct7, foldAct8, foldAct9, foldAct10, foldAct11, foldAct12, foldAct13,
    foldAct14, foldAct15, foldAct16, foldRst1, foldRst2, foldRst3, foldRst4,
    foldRst5, foldRst6, foldRst7, foldRst8, foldRst9, foldRst10, foldRst11,
    foldRst12, foldRst13, foldRst14, foldRst15, foldRst16, ite_apply,
    Function.update_apply, h6, hlt]
  · have hlt : k < 6 := by omega
    simp [foldPaper, foldAct1, foldAct2, foldAct3, foldAct4, foldAct5, foldAct6,
    foldAct7, foldAct8, foldAct9, foldAct10, foldAct11, foldAct12, foldAct13,
    foldAct14, foldAct15, foldAct16, foldRst1, foldRst2, foldRst3, foldRst4,
    foldRst5, foldRst6, foldRst7, foldRst8, foldRst9, foldRst10, foldRst11,
    foldRst12, foldRst13, foldRst14, foldRst15, foldRst16, ite_apply,
    Function.update_apply, h6, hlt]

/-- Net effect of `foldPaper` on pivot threeUR. -/
lemma foldPaper_threeUR (fix : ℚ) (k : ℤ) (s : FoldState) :
    foldPaper fix k s PivotId.threeUR =
      if 7 ≤ k then { s PivotId.threeUR with rx := 178, tx := fix * (-1), ty := 0, tz := 0 }
      else Pivot.rest := by
  by_cases h7 : (7 : ℤ) ≤ k
  · have hlt : ¬ k < 7 := by omega
    simp [foldPaper, foldAct1, foldAct2, foldAct3, foldAct4, foldAct5, foldAct6,
    foldAct7, foldAct8, foldAct9, foldAct10, foldAct11, foldAct12, foldAct13,
    foldAct14, foldAct15, foldAct16, foldRst1, foldRst2, foldRst3, foldRst4,
    foldRst5, foldRst6, foldRst7, foldRst8, foldRst9, foldRst10, foldRst11,
    foldRst12, foldRst13, foldRst14, foldRst15, foldRst16, ite_apply,
    Function.update_apply, h7, hlt]
  · have hlt : k < 7 := by omega
    simp [foldPaper, foldAct1, foldAct2, foldAct3, foldAct4, foldAct5, foldAct6,
    foldAct7, foldAct8, foldAct9, foldAct10, foldAct11, foldAct12, foldAct13,
    foldAct14, foldAct15, foldAct16, foldRst1, foldRst2, foldRst3, foldRst4,
    foldRst5, foldRst6, foldRst7, foldRst8, foldRst9, foldRst10, foldRst11,
    foldRst12, foldRst13, foldRst14, foldRst15, foldRst16, ite_apply,
    Function.update_apply, h7, hlt]

/-- Net effect of `foldPaper` on pivot threeBR. -/
lemma foldPaper_threeBR (fix : ℚ) (k : ℤ) (s : FoldState) :
    foldPaper fix k s PivotId.threeBR =
      if 8 ≤ k then { s PivotId.threeBR with rx := 178, tx := fix, ty := 0, tz := 0 }
      else Pivot.rest := by
  by_cases h8 : (8 : ℤ) ≤ k
  · have hlt : ¬ k < 8 := by omega
    simp [foldPaper, foldAct1, foldAct2, foldAct3, foldAct4, foldAct5, foldAct6,
    foldAct7, foldAct8, foldAct9, foldAct10, foldAct11, foldAct12, foldAct13,
    foldAct14, foldAct15, foldAct16, foldRst1, foldRst2, foldRst3, foldRst4,
    foldRst5, foldRst6, foldRst7, foldRst8, foldRst9, foldRst10, foldRst11,
    foldRst12, foldRst13, foldRst14, foldRst15, foldRst16, ite_apply,
    Function.update_apply, h8, hlt]
  · have hlt : k < 8 := by omega
    simp [foldPaper, foldAct1, foldAct2, foldAct3, foldAct4, foldAct5, foldAct6,
    foldAct7, foldAct8, foldAct9, foldAct10, foldAct11, foldAct12, foldAct13,
    foldAct14, foldAct15, foldAct16, foldRst1, foldRst2, foldRst3, foldRst4,
    foldRst5, foldRst6, foldRst7, foldRst8, foldRst9, foldRst10, foldRst11,
    foldRst12, foldRst13, foldRst14, foldRst15, foldRst16, ite_apply,
    Function.update_apply, h8, hlt]

/-- Net effect of `foldPaper` on pivot fourUL. -/
lemma foldPaper_fourUL (fix : ℚ) (k : ℤ) (s : FoldState) :
    foldPaper fix k s PivotId.fourUL =
      if 9 ≤ k then { s PivotId.fourUL with rx := 178 }
      else { s PivotId.fourUL with rx := 0, ry := 0, rz := 0 } := by
  by_cases h9 : (9 : ℤ) ≤ k
  · have hlt : ¬ k < 9 := by omega
    simp [foldPaper, foldAct1, foldAct2, foldAct3, foldAct4, foldAct5, foldAct6,
    foldAct7, foldAct8, foldAct9, foldAct10, foldAct11, foldAct12, foldAct13,
    foldAct14, foldAct15, foldAct16, foldRst1, foldRst2, foldRst3, foldRst4,
    foldRst5, foldRst6, foldRst7, foldRst8, foldRst9, foldRst10, foldRst11,
    foldRst12, foldRst13, foldRst14, foldRst15, foldRst16, ite_apply,
    Function.update_apply, h9, hlt]
  · have hlt : k < 9 := by omega
    simp [foldPaper, foldAct1, foldAct2, foldAct3, foldAct4, foldAct5, foldAct6,
    foldAct7, foldAct8, foldAct9, foldAct10, foldAct11, foldAct12, foldAct13,
    foldAct14, foldAct15, foldAct16, foldRst1, foldRst2, foldRst3, foldRst4,
    foldRst5, foldRst6, foldRst7, foldRst8, foldRst9, foldRst10, foldRst11,
    foldRst12, foldRst13, foldRst14, foldRst15, foldRst16, ite_apply,
    Function.update_apply, h9, hlt]

/-- Net effect of `foldPaper` on pivot fourBL. -/
lemma foldPaper_fourBL (fix : ℚ) (k : ℤ) (s : FoldState) :
    foldPaper fix k s PivotId.fourBL =
      if 10 ≤ k then { s PivotId.fourBL with rx := 178 }
      else { s PivotId.fourBL with rx := 0, ry := 0, rz := 0 } := by
  by_cases h10 : (10 : ℤ) ≤ k
  · have hlt : ¬ k < 10 := by omega
    simp [foldPaper, foldAct1, foldAct2, foldAct3, foldAct4, foldAct5, foldAct6,
    foldAct7, foldAct8, foldAct9, foldAct10, foldAct11, foldAct12, foldAct13,
    foldAct14, foldAct15, foldAct16, foldRst1, foldRst2, foldRst3, foldRst4,
    foldRst5, foldRst6, foldRst7, foldRst8, foldRst9, foldRst10, foldRst11,
    foldRst12, foldRst13, foldRst14, foldRst15, foldRst16, ite_apply,
    Function.update_apply, h10, hlt]
  · have hlt : k < 10 := by omega
    simp [foldPaper, foldAct1, foldAct2, foldAct3, foldAct4, foldAct5, foldAct6,
    foldAct7, foldAct8, foldAct9, foldAct10, foldAct11, foldAct12, foldAct13,
    foldAct14, foldAct15, foldAct16, foldRst1, foldRst2, foldRst3, foldRst4,
    foldRst5, foldRst6, foldRst7, foldRst8, foldRst9, foldRst10, foldRst11,
    foldRst12, foldRst13, foldRst14, foldRst15, foldRst16, ite_apply,
    Function.update_apply, h10, hlt]

/-- Net effect of `foldPaper` on pivot fourUR. -/
lemma foldPaper_fourUR (fix : ℚ) (k : ℤ) (s : FoldState) :
    foldPaper fix k s PivotId.fourUR =
      if 11 ≤ k then { s PivotId.fourUR with rx := 178 }
      else { s PivotId.fourUR with rx := 0, ry := 0, rz := 0 } := by
  by_cases h11 : (11 : ℤ) ≤ k
  · have hlt : ¬ k < 11 := by omega
    simp [foldPaper, foldAct1, foldAct2, foldAct3, foldAct4, foldAct5, foldAct6,
    foldAct7, foldAct8, foldAct9, foldAct10, foldAct11, foldAct12, foldAct13,
    foldAct14, foldAct15, foldAct16, foldRst1, foldRst2, foldRst3, foldRst4,
    foldRst5, foldRst6, foldRst7, foldRst8, foldRst9, foldRst10, foldRst11,
    foldRst12, foldRst13, foldRst14, foldRst15, foldRst16, ite_apply,
    Function.update_apply, h11, hlt]
  · have hlt : k < 11 := by omega
    simp [foldPaper, foldAct1, foldAct2, foldAct3, foldAct4, foldAct5, foldAct6,
    foldAct7, foldAct8, foldAct9, foldAct10, foldAct11, foldAct12, foldAct13,
    foldAct14, foldAct15, foldAct16, foldRst1, foldRst2, foldRst3, foldRst4,
    foldRst5, foldRst6, foldRst7, foldRst8, foldRst9, foldRst10, foldRst11,
    foldRst12, foldRst13, foldRst14, foldRst15, foldRst16, ite_apply,
    Function.update_apply, h11, hlt]

/-- Net effect of `foldPaper` on pivot fourBR. -/
lemma foldPaper_fourBR (fix : ℚ) (k : ℤ) (s : FoldState) :
    foldPaper fix k s PivotId.fourBR =
      if 12 ≤ k then { s PivotId.fourBR with rx := 178 }
      else { s PivotId.fourBR with rx := 0, ry := 0, rz := 0 } := by
  by_cases h12 : (12 : ℤ) ≤ k
  · have hlt : ¬ k < 12 := by omega
    simp [foldPaper, foldAct1, foldAct2, foldAct3, foldAct4, foldAct5, foldAct6,
    foldAct7, foldAct8, foldAct9, foldAct10, foldAct11, foldAct12, foldAct13,
    foldAct14, foldAct15, foldAct16, foldRst1, foldRst2, foldRst3, foldRst4,
    foldRst5, foldRst6, foldRst7, foldRst8, foldRst9, foldRst10, foldRst11,
    foldRst12, foldRst13, foldRst14, foldRst15, foldRst16, ite_apply,
    Function.update_apply, h12, hlt]
  · have hlt : k < 12 := by omega
    simp [foldPaper, foldAct1, foldAct2, foldAct3, foldAct4, foldAct5, foldAct6,
    foldAct7, foldAct8, foldAct9, foldAct10, foldAct11, foldAct12, foldAct13,
    foldAct14, foldAct15, foldAct16, foldRst1, foldRst2, foldRst3, foldRst4,
    foldRst5, foldRst6, foldRst7, foldRst8, foldRst9, foldRst10, foldRst11,
    foldRst12, foldRst13, foldRst14, foldRst15, foldRst16, ite_apply,
    Function.update_apply, h12, hlt]

/-- Net effect of `foldPaper` on pivot fiveL. -/
lemma foldPaper_fiveL (fix : ℚ) (k : ℤ) (s : FoldState) :
    foldPaper fix k s PivotId.fiveL =
      if 13 ≤ k then { s PivotId.fiveL with rz := 86 }
      else { s PivotId.fiveL with rx := 0, ry := 0, rz := 0 } := by
  by_cases h13 : (13 : ℤ) ≤ k
  · have hlt : ¬ k < 13 := by omega
    simp [foldPaper, foldAct1, foldAct2, foldAct3, foldAct4, foldAct5, foldAct6,
    foldAct7, foldAct8, foldAct9, foldAct10, foldAct11, foldAct12, foldAct13,
    foldAct14, foldAct15, foldAct16, foldRst1, foldRst2, foldRst3, foldRst4,
    foldRst5, foldRst6, foldRst7, foldRst8, foldRst9, foldRst10, foldRst11,
    foldRst12, foldRst13, foldRst14, foldRst15, foldRst16, ite_apply,
    Function.update_apply, h13, hlt]
  · have hlt : k < 13 := by omega
    simp [foldPaper, foldAct1, foldAct2, foldAct3, foldAct4, foldAct5, foldAct6,
    foldAct7, foldAct8, foldAct9, foldAct10, foldAct11, foldAct12, foldAct13,
    foldAct14, foldAct15, foldAct16, foldRst1, foldRst2, foldRst3, foldRst4,
    foldRst5, foldRst6, foldRst7, foldRst8, foldRst9, foldRst10, foldRst11,
    foldRst12, foldRst13, foldRst14, foldRst15, foldRst16, ite_apply,
    Function.update_apply, h13, hlt]

/-- Net effect of `foldPaper` on pivot fiveR. -/
lemma foldPaper_fiveR (fix : ℚ) (k : ℤ) (s : FoldState) :
    foldPaper fix k s PivotId.fiveR =
      if 14 ≤ k then { s PivotId.fiveR with rz := -86 }
      else { s PivotId.fiveR with rx := 0, ry := 0, rz := 0 } := by
  by_cases h14 : (14 : ℤ) ≤ k
  · have hlt : ¬ k < 14 := by omega
    simp [foldPaper, foldAct1, foldAct2, foldAct3, foldAct4, foldAct5, foldAct6,
    foldAct7, foldAct8, foldAct9, foldAct10, foldAct11, foldAct12, foldAct13,
    foldAct14, foldAct15, foldAct16, foldRst1, foldRst2, foldRst3, foldRst4,
    foldRst5, foldRst6, foldRst7, foldRst8, foldRst9, foldRst10, foldRst11,
    foldRst12, foldRst13, foldRst14, foldRst15, foldRst16, ite_apply,
    Function.update_apply, h14, hlt]
  · have hlt : k < 14 := by omega
    simp [foldPaper, foldAct1, foldAct2, foldAct3, foldAct4, foldAct5, foldAct6,
    foldAct7, foldAct8, foldAct9, foldAct10, foldAct11, foldAct12, foldAct13,
    foldAct14, foldAct15, foldAct16, foldRst1, foldRst2, foldRst3, foldRst4,
    foldRst5, foldRst6, foldRst7, foldRst8, foldRst9, foldRst10, foldRst11,
    foldRst12, foldRst13, foldRst14, foldRst15, foldRst16, ite_apply,
    Function.update_apply, h14, hlt]

/-- Net effect of `foldPaper` on pivot sixL. -/
lemma foldPaper_sixL (fix : ℚ) (k : ℤ) (s : FoldState) :
    foldPaper fix k s PivotId.sixL =
      if 15 ≤ k then { s PivotId.sixL with rz := -84 }
      else { s PivotId.sixL with rx := 0, ry := 0, rz := 0 } := by
  by_cases h15 : (15 : ℤ) ≤ k
  · have hlt : ¬ k < 15 := by omega
    simp [foldPaper, foldAct1, foldAct2, foldAct3, foldAct4, foldAct5, foldAct6,
    foldAct7, foldAct8, foldAct9, foldAct10, foldAct11, foldAct12, foldAct13,
    foldAct14, foldAct15, foldAct16, foldRst1, foldRst2, foldRst3, foldRst4,
    foldRst5, foldRst6, foldRst7, foldRst8, foldRst9, foldRst10, foldRst11,
    foldRst12, foldRst13, foldRst14, foldRst15, foldRst16, ite_apply,
    Function.update_apply, h15, hlt]
  · have hlt : k < 15 := by omega
    simp [foldPaper, foldAct1, foldAct2, foldAct3, foldAct4, foldAct5, foldAct6,
    foldAct7, foldAct8, foldAct9, foldAct10, foldAct11, foldAct12, foldAct13,
    foldAct14, foldAct15, foldAct16, foldRst1, foldRst2, foldRst3, foldRst4,
    foldRst5, foldRst6, foldRst7, foldRst8, foldRst9, foldRst10, foldRst11,
    foldRst12, foldRst13, foldRst14, foldRst15, foldRst16, ite_apply,
    Function.update_apply, h15, hlt]

/-- Net effect of `foldPaper` on pivot sixR. -/
lemma foldPaper_sixR (fix : ℚ) (k : ℤ) (s : FoldState) :
    foldPaper fix k s PivotId.sixR =
      if 16 ≤ k then { s PivotId.sixR with rz := 84 }
      else { s PivotId.sixR with rx := 0, ry := 0, rz := 0 } := by
  by_cases h16 : (16 : ℤ) ≤ k
  · have hlt : ¬ k < 16 := by omega
    simp [foldPaper, foldAct1, foldAct2, foldAct3, foldAct4, foldAct5, foldAct6,
    foldAct7, foldAct8, foldAct9, foldAct10, foldAct11, foldAct12, foldAct13,
    foldAct14, foldAct15, foldAct16, foldRst1, foldRst2, foldRst3, foldRst4,
    foldRst5, foldRst6, foldRst7, foldRst8, foldRst9, foldRst10, foldRst11,
    foldRst12, foldRst13, foldRst14, foldRst15, foldRst16, ite_apply,
    Function.update_apply, h16, hlt]
  · have hlt : k < 16 := by omega
    simp [foldPaper, foldAct1, foldAct2, foldAct3, foldAct4, foldAct5, foldAct6,
    foldAct7, foldAct8, foldAct9, foldAct10, foldAct11, foldAct12, foldAct13,
    foldAct14, foldAct15, foldAct16, foldRst1, foldRst2, foldRst3, foldRst4,
    foldRst5, foldRst6, foldRst7, foldRst8, foldRst9, foldRst10, foldRst11,
    foldRst12, foldRst13, foldRst14, foldRst15, foldRst16, ite_apply,
    Function.update_apply, h16, hlt]

/-- `self.fold_fix = side_d / 113` (`createGiftWrap`, line 201), computed
from the canonical bounding-box height returned by `getObjectSides`. -/
def foldFix (side_d : ℚ) : ℚ := side_d / 113

/-! ## Ribbon width (`getRibbonWidth`, lines 1823-1840) -/

/-- `getRibbonWidth(r_size, side_d, side_e)`. -/
def getRibbonWidth (r_size : String) (side_d side_e : ℚ) : ℚ :=
  let smallest_side := if side_d > side_e then side_e else side_d
  let r_width_s := smallest_side * 0.09
  if r_size = "L" then r_width_s * 4.0
  else if r_size = "M" then r_width_s * 2.5
  else r_width_s

/-! ## Ribbon-size change (`changeRibbon`, lines 2087-2113)

`changeRibbon(size)` does nothing when `size == self.ribbon_size`;
otherwise it stores the new size and multiplies the `scaleX` of every node
in `self.ribbon_prof` by a factor taken from a cascade of six guarded
assignments over `(old_size, size)`. -/

/-- The ribbon state `changeRibbon` reads and writes: the stored size and
the cross-section `scaleX` of each stored ribbon-profile node. -/
structure RibbonState where
  ribbon_size : String
  profiles : List ℚ

/-- The `mult` cascade (lines 2096-2108): `mult = 1.0`, then six `if`
statements, each possibly reassigning it. -/
def ribbonMult (old_size size : String) : ℚ :=
  let m : ℚ := 1.0
  let m := if old_size = "S" ∧ size = "L" then 3.5 else m
  let m := if old_size = "S" ∧ size = "M" then 2.5 else m
  let m := if old_size = "M" ∧ size = "S" then 0.4 else m
  let m := if old_size = "M" ∧ size = "L" then 1.4 else m
  let m := if old_size = "L" ∧ size = "S" then 0.25 else m
  let m := if old_size = "L" ∧ size = "M" then 0.625 else m
  m

/-- `changeRibbon(size)` (lines 2087-2113). -/
def changeRibbon (size : String) (st : RibbonState) : RibbonState :=
  if size ≠ st.ribbon_size then
    { ribbon_size := size,
      profiles := st.profiles.map (fun scale_x => scale_x * ribbonMult st.ribbon_size size) }
  else st

/-! ## Constructor precondition handling (`__init__`, lines 111-173)

`__init__` raises `ValueError` as its very first statement when the target
node does not exist; only afterwards does it create any state.  In create
mode it clamps the paper thickness to the 0.02 floor (line 159) and stores
it as both `wrap_thickness` and `ribbon_thickness` (lines 160-161; line 176
re-asserts `ribbon_thickness = wrap_thickness`). -/

/-- The constructor state relevant to the precondition/clamping claims. -/
structure GWState where
  wrap_name : String
  wrap_thickness : ℚ
  ribbon_thickness : ℚ
  ribbon_size : String

/-- The create-mode prefix of `GiftWrap.__init__`: existence check first
(raise before any mutation), then thickness clamping and attribute
storage.  `objExists` is the host scene's answer to
`mc.objExists(name)`. -/
def giftWrapInit (objExists : Bool) (name : String) (ribbon_size : String)
    (thickness : ℚ) : Except String GWState :=
  if ! objExists then
    Except.error ("Node \"" ++ name ++ "\" does not exist")
  else
    let thickness := if thickness < 0.02 then 0.02 else thickness
    Except.ok
      { wrap_name := name
        wrap_thickness := thickness
        ribbon_thickness := thickness
        ribbon_size := ribbon_size }

end GiftWrap

namespace GiftWrap

/-- C1: the overlap flag is true exactly when
`(side_e + thickness) < 1.2 * (side_d + thickness)`; it does not depend on
`side_a`. -/
theorem overlap_criterion (_a d e t : ℚ) :
    wrapOverlap d e t = true ↔ e + t < 1.2 * (d + t) := by
  unfold wrapOverlap sideE sideB
  rw [decide_eq_true_iff]
  constructor <;> intro h <;> nlinarith

/-- C1 witness: the unit-cube scenario — `side_e = side_d = 1`,
`thickness = 0.02` gives overlap (`1.02 < 1.2 * 1.02`). -/
theorem overlap_criterion_witness :
    wrapOverlap 1 1 (2/100) = true := by
  rw [overlap_criterion 1 1 1 (2/100)]
  norm_num

/-- C3: the branch formulas of the solver — with `b`, `c`, `ep = side_e +
thickness` as in the source, `f = b - c` under overlap and `c - b`
otherwise, `z1 = z2 - b` under overlap and `-z7` otherwise, `z8 = z7` under
overlap and `z7 + f` otherwise, where `z2 = -(ep/2 + side_d + thickness)`
and `z7 = ep/2 + side_d + thickness + c`. -/
theorem solver_branch_formulas (d e t : ℚ) :
    (sideF d e t =
      if wrapOverlap d e t then sideB d t - sideC e t else sideC e t - sideB d t)
    ∧ (zRow1 d e t =
      if wrapOverlap d e t then zRow2 d e t - sideB d t else -(zRow7 d e t))
    ∧ (zRow8 d e t =
      if wrapOverlap d e t then zRow7 d e t else zRow7 d e t + sideF d e t)
    ∧ zRow2 d e t = -(sideE e t / 2 + d + t)
    ∧ zRow7 d e t = sideE e t / 2 + d + t + sideC e t := by
  refine ⟨?_, ?_, ?_, ?_, ?_⟩ <;>
    cases hov : wrapOverlap d e t <;>
      simp [sideF, zRow1, zRow8, zRow2, zRow7, zRow6, zRow5, hov] <;> ring

/-- C2: every FoldPoint key `createClusters` looks up in the pattern exists
in the dict produced by `getFoldingPattern` for that overlap mode. -/
theorem cluster_keys_exist (ov : Bool) (k : String)
    (hk : k ∈ clusterKeys ov) : k ∈ patternKeys ov := by
  have h : (clusterKeys ov).all (fun x => decide (x ∈ patternKeys ov)) = true := by
    cases ov <;> decide
  exact of_decide_eq_true (List.all_eq_true.mp h k hk)

/-- C2 witness: `HI4` is consumed by cluster 6R in overlap mode and exists
in the overlap pattern. -/
theorem cluster_keys_exist_witness :
    "HI4" ∈ clusterKeys true ∧ "HI4" ∈ patternKeys true :=
  ⟨by decide, cluster_keys_exist true "HI4" (by decide)⟩

/-- C5: the fold-step table of `foldPaper` — step 1 sets 1B rotateX=-90,
step 2 sets 2B rotateX=-90, step 3 sets 1U rotateX=90, step 4 sets 2U
rotateX=89.8, steps 5-8 set 3UL/3BL/3UR/3BR rotateX=178 with translateX
+fold_fix, -fold_fix, -fold_fix, +fold_fix, steps 9-12 set 4UL/4BL/4UR/4BR
rotateX=178, steps 13-16 set 5L rotateZ=86, 5R rotateZ=-86, 6L rotateZ=-84,
6R rotateZ=84, where `fold_fix = side_d / 113`. -/
theorem fold_step_table (d : ℚ) (k : ℤ) (s : FoldState) :
    (1 ≤ k → (foldPaper (foldFix d) k s PivotId.oneB).rx = -90)
    ∧ (2 ≤ k → (foldPaper (foldFix d) k s PivotId.twoB).rx = -90)
    ∧ (3 ≤ k → (foldPaper (foldFix d) k s PivotId.oneU).rx = 90)
    ∧ (4 ≤ k → (foldPaper (foldFix d) k s PivotId.twoU).rx = 89.8)
    ∧ (5 ≤ k → (foldPaper (foldFix d) k s PivotId.threeUL).rx = 178
        ∧ (foldPaper (foldFix d) k s PivotId.threeUL).tx = foldFix d)
    ∧ (6 ≤ k → (foldPaper (foldFix d) k s PivotId.threeBL).rx = 178
        ∧ (foldPaper (foldFix d) k s PivotId.threeBL).tx = -(foldFix d))
    ∧ (7 ≤ k → (foldPaper (foldFix d) k s PivotId.threeUR).rx = 178
        ∧ (foldPaper (foldFix d) k s PivotId.threeUR).tx = -(foldFix d))
    ∧ (8 ≤ k → (foldPaper (foldFix d) k s PivotId.threeBR).rx = 178
        ∧ (foldPaper (foldFix d) k s PivotId.threeBR).tx = foldFix d)
    ∧ (9 ≤ k → (foldPaper (foldFix d) k s PivotId.fourUL).rx = 178)
    ∧ (10 ≤ k → (foldPaper (foldFix d) k s PivotId.fourBL).rx = 178)
    ∧ (11 ≤ k → (foldPaper (foldFix d) k s PivotId.fourUR).rx = 178)
    ∧ (12 ≤ k → (foldPaper (foldFix d) k s PivotId.fourBR).rx = 178)
    ∧ (13 ≤ k → (foldPaper (foldFix d) k s PivotId.fiveL).rz = 86)
    ∧ (14 ≤ k → (foldPaper (foldFix d) k s PivotId.fiveR).rz = -86)
    ∧ (15 ≤ k → (foldPaper (foldFix d) k s PivotId.sixL).rz = -84)
    ∧ (16 ≤ k → (foldPaper (foldFix d) k s PivotId.sixR).rz = 84)
    ∧ foldFix d = d / 113 := by
  refine ⟨?_, ?_, ?_, ?_, ?_, ?_, ?_, ?_, ?_, ?_, ?_, ?_, ?_, ?_, ?_, ?_, rfl⟩ <;>
    intro hk <;>
      simp [foldPaper_oneB, foldPaper_twoB, foldPaper_oneU, foldPaper_twoU,
        foldPaper_threeUL, foldPaper_threeBL, foldPaper_threeUR, foldPaper_threeBR,
        foldPaper_fourUL, foldPaper_fourBL, foldPaper_fourUR, foldPaper_fourBR,
        foldPaper_fiveL, foldPaper_fiveR, foldPaper_sixL, foldPaper_sixR, hk]

/-- C5 witness: fully folded (`folds = 16`, `side_d = 113`, so
`fold_fix = 1`) from the rest state, 1B shows rotateX=-90, 3UL shows
translateX=+1, 6R shows rotateZ=84. -/
theorem fold_step_table_witness :
    (foldPaper (foldFix 113) 16 FoldState.initial PivotId.oneB).rx = -90
    ∧ (foldPaper (foldFix 113) 16 FoldState.initial PivotId.threeUL).tx = foldFix 113
    ∧ (foldPaper (foldFix 113) 16 FoldState.initial PivotId.sixR).rz = 84 := by
  obtain ⟨h1, h2, h3, h4, h5, h6, h7, h8, h9, h10, h11, h12, h13, h14, h15, h16, hfix⟩ :=
    fold_step_table 113 16 FoldState.initial
  exact ⟨h1 (by norm_num), (h5 (by norm_num)).2, h16 (by norm_num)⟩

/-- C6: for `0 ≤ K ≤ 16`, `foldPaper(K)` twice equals `foldPaper(K)` once,
and `foldPaper(K)` followed by `foldPaper(0)`, starting from the rest state
the clusters are created in, returns every pivot to identity rotation and
zero translate. -/
theorem fold_idempotent_reset (fix : ℚ) (k : ℤ) (s : FoldState)
    (_hk0 : 0 ≤ k) (_hk16 : k ≤ 16) :
    foldPaper fix k (foldPaper fix k s) = foldPaper fix k s
    ∧ foldPaper fix 0 (foldPaper fix k FoldState.initial) = FoldState.initial := by
  constructor
  · funext pid
    cases pid <;>
      simp [foldPaper_oneB, foldPaper_twoB, foldPaper_oneU, foldPaper_twoU,
        foldPaper_threeUL, foldPaper_threeBL, foldPaper_threeUR, foldPaper_threeBR,
        foldPaper_fourUL, foldPaper_fourBL, foldPaper_fourUR, foldPaper_fourBR,
        foldPaper_fiveL, foldPaper_fiveR, foldPaper_sixL, foldPaper_sixR] <;>
      split_ifs <;> rfl
  · funext pid
    cases pid <;>
      simp [foldPaper_oneB, foldPaper_twoB, foldPaper_oneU, foldPaper_twoU,
        foldPaper_threeUL, foldPaper_threeBL, foldPaper_threeUR, foldPaper_threeBR,
        foldPaper_fourUL, foldPaper_fourBL, foldPaper_fourUR, foldPaper_fourBR,
        foldPaper_fiveL, foldPaper_fiveR, foldPaper_sixL, foldPaper_sixR,
        FoldState.initial] <;>
      split_ifs <;> rfl

/-- C6 witness: at `K = 16` the double fold equals the single fold and the
fold-then-unfold round trip restores the rest state. -/
theorem fold_idempotent_reset_witness :
    foldPaper 1 16 (foldPaper 1 16 FoldState.initial) = foldPaper 1 16 FoldState.initial
    ∧ foldPaper 1 0 (foldPaper 1 16 FoldState.initial) = FoldState.initial :=
  fold_idempotent_reset 1 16 FoldState.initial (by norm_num) (by norm_num)

/-- C4 counterexample: the claim assigns the 4th-fold angles in UL/UR/BL/BR
order, i.e. `135` about Y to corner UL — but the code rotates the 4UL pivot
group by `225` about Y, so the claimed assignment fails at corner UL. -/
theorem pivot_rot4_claim_false :
    ¬ (pivotGroupRot4 "UL" = ((0 : ℚ), (135 : ℚ), (0 : ℚ))) := by
  decide

/-- C4 (amended): the 3rd-fold pivot groups are rotated UL:+45 about Y,
UR:-45 about Y, BL:(0,45,180), BR:(180,225,0); the 4th-fold pivot groups
are rotated UR:135 about Y, BR:45 about Y, UL:225 about Y, and
BL:(180,225,180) — the fixed angles `135/45/225/(180,225,180)` follow the
code's creation order UR, BR, UL, BL, not the UL/UR/BL/BR order. -/
theorem pivot_group_rotations :
    pivotGroupRot3 "UL" = ((0 : ℚ), 45, 0)
    ∧ pivotGroupRot3 "UR" = ((0 : ℚ), -45, 0)
    ∧ pivotGroupRot3 "BL" = ((0 : ℚ), 45, 180)
    ∧ pivotGroupRot3 "BR" = ((180 : ℚ), 225, 0)
    ∧ pivotGroupRot4 "UR" = ((0 : ℚ), 135, 0)
    ∧ pivotGroupRot4 "BR" = ((0 : ℚ), 45, 0)
    ∧ pivotGroupRot4 "UL" = ((0 : ℚ), 225, 0)
    ∧ pivotGroupRot4 "BL" = ((180 : ℚ), 225, 180) := by
  refine ⟨?_, ?_, ?_, ?_, ?_, ?_, ?_, ?_⟩ <;> decide

/-- C10: `getRibbonWidth` returns `0.09` times the smaller of `side_d` and
`side_e`, multiplied by `4.0` for size L and by `2.5` for size M; every
other size string — including "S" — yields the unmultiplied base width. -/
theorem ribbon_width_formula (d e : ℚ) (s : String)
    (hs : s ≠ "L" ∧ s ≠ "M") :
    getRibbonWidth "L" d e = 0.09 * min d e * 4.0
    ∧ getRibbonWidth "M" d e = 0.09 * min d e * 2.5
    ∧ getRibbonWidth s d e = 0.09 * min d e := by
  have hmin : (if d > e then e else d) = min d e := by
    rcases le_or_lt d e with h | h
    · rw [if_neg (not_lt.mpr h), min_eq_left h]
    · rw [if_pos h, min_eq_right h.le]
  refine ⟨?_, ?_, ?_⟩ <;>
    simp only [getRibbonWidth, hmin, hs.1, hs.2, if_neg, if_pos,
      reduceIte, String.reduceEq] <;> ring

/-- C10 witness: at `d = 2`, `e = 3`, the unrecognized size "X" yields the
base width `0.09 * 2`, and L/M multiply it by 4 and 2.5. -/
theorem ribbon_width_formula_witness :
    getRibbonWidth "L" 2 3 = 0.09 * 2 * 4.0
    ∧ getRibbonWidth "M" 2 3 = 0.09 * 2 * 2.5
    ∧ getRibbonWidth "X" 2 3 = 0.09 * 2 := by
  have h := ribbon_width_formula 2 3 "X" (by decide)
  have hm : min (2 : ℚ) 3 = 2 := by norm_num
  rw [hm] at h
  exact h

/-- C7: changing ribbon size S to L multiplies every stored profile scale
by exactly 3.5; changing L to S multiplies by exactly 0.25; an S-L-S round
trip therefore scales by 0.875 (lossy, not an exact inverse); and
`changeRibbon` is a no-op when the requested size equals the stored one. -/
theorem change_ribbon_scales (st stL other : RibbonState)
    (hS : st.ribbon_size = "S") (hL : stL.ribbon_size = "L") :
    (changeRibbon "L" st).profiles = st.profiles.map (fun x => x * 3.5)
    ∧ (changeRibbon "S" stL).profiles = stL.profiles.map (fun x => x * 0.25)
    ∧ (changeRibbon "S" (changeRibbon "L" st)).profiles
        = st.profiles.map (fun x => x * 0.875)
    ∧ changeRibbon other.ribbon_size other = other := by
  refine ⟨?_, ?_, ?_, ?_⟩
  · simp [changeRibbon, ribbonMult, hS]
  · simp [changeRibbon, ribbonMult, hL]
  · have h1 : changeRibbon "L" st
        = { ribbon_size := "L",
            profiles := st.profiles.map (fun x => x * 3.5) } := by
      simp [changeRibbon, ribbonMult, hS]
    rw [h1]
    simp [changeRibbon, ribbonMult, List.map_map, Function.comp]
    intro a _
    left
    norm_num
  · simp [changeRibbon]

/-- C7 witness: a small ribbon with profile scales `[1, 2]` — S to L gives
`[3.5, 7]`, L back to S gives `[0.875, 1.75]`, and re-requesting the stored
size changes nothing. -/
theorem change_ribbon_scales_witness :
    (changeRibbon "L" ⟨"S", [1, 2]⟩).profiles = [(3.5 : ℚ), 7]
    ∧ (changeRibbon "S" (changeRibbon "L" ⟨"S", [1, 2]⟩)).profiles
        = [(0.875 : ℚ), 1.75]
    ∧ changeRibbon "M" (⟨"M", [1, 2]⟩ : RibbonState) = ⟨"M", [1, 2]⟩ := by
  obtain ⟨h1, h2, h3, h4⟩ :=
    change_ribbon_scales ⟨"S", [1, 2]⟩ ⟨"L", [1, 2]⟩ ⟨"M", [1, 2]⟩ rfl rfl
  refine ⟨?_, ?_, h4⟩
  · rw [h1]; norm_num
  · rw [h3]; norm_num

/-- C8: when the target node does not exist, the constructor fails with an
error naming the offending node and produces no wrap state at all. -/
theorem init_missing_node_error (name ribbon_size : String) (thickness : ℚ) :
    giftWrapInit false name ribbon_size thickness
      = Except.error ("Node \"" ++ name ++ "\" does not exist") := by
  simp [giftWrapInit]

/-- C9: in create mode a thickness below 0.02 is clamped to 0.02 (not an
error), so the stored `wrap_thickness` is always at least 0.02 and
`ribbon_thickness` equals it. -/
theorem init_thickness_clamped (name ribbon_size : String) (thickness : ℚ)
    (st : GWState)
    (h : giftWrapInit true name ribbon_size thickness = Except.ok st) :
    st.wrap_thickness = (if thickness < 0.02 then 0.02 else thickness)
    ∧ 0.02 ≤ st.wrap_thickness
    ∧ st.ribbon_thickness = st.wrap_thickness := by
  simp only [giftWrapInit, Bool.not_true, Bool.false_eq_true, if_false,
    Except.ok.injEq] at h
  subst h
  refine ⟨rfl, ?_, rfl⟩
  dsimp only
  split_ifs with hlt
  · norm_num
  · linarith [not_lt.mp hlt]

/-- C9 witness: a requested thickness of 0.001 is stored as 0.02. -/
theorem init_thickness_clamped_witness :
    giftWrapInit true "box" "L" (1/1000) = Except.ok ⟨"box", 0.02, 0.02, "L"⟩
    ∧ (0.02 : ℚ) ≤ (GWState.mk "box" 0.02 0.02 "L").wrap_thickness := by
  have hok : giftWrapInit true "box" "L" (1/1000)
      = Except.ok ⟨"box", 0.02, 0.02, "L"⟩ := by
    norm_num [giftWrapInit]
  exact ⟨hok, (init_thickness_clamped "box" "L" (1/1000) _ hok).2.1⟩

end GiftWrap
